import Mathlib

/-!
Shallow embedding of the KeplerGL metro pipeline
(`create_dataframe.py`, the Feed Assembler; `create_geojson_file.py`,
the Line Geometry Builder), together with theorems settling the
specification claims about it.

Tables are lists of structure values, one structure per row, in row
order.  Missing cells (pandas `NaN`) are `Option.none`.  Pandas
`merge(..., how="inner")` is modelled as an order-preserving nested
loop over the left table; `Series.unique()` as first-occurrence
deduplication; `groupby` keys are emitted in sorted order (pandas
default `sort=True`), with each group keeping the original row order.
-/

namespace MetroBCN

/-! ### Time parsing (`pd.to_datetime(..., format="%H:%M:%S", errors="coerce")`)

`strptime`-style `%H:%M:%S`: each field is one or two digits, hours
0–23, minutes and seconds 0–59; anything else fails and is coerced to
missing.  A parse that succeeds yields a timestamp on the default date
1900-01-01; we record it as seconds of day, and separately record the
1900-01-01 → 1970-01-01 offset used by the `arrival_time_int` column. -/

/-- Splits a character list on a separator character, `str.split`-style:
`splitCh ':' "08:15:30"` gives the three field character lists. -/
def splitCh (c : Char) : List Char → List (List Char)
  | [] => [[]]
  | x :: xs =>
    let r := splitCh c xs
    if x = c then [] :: r
    else
      match r with
      | [] => [[x]]
      | y :: ys => (x :: y) :: ys

/-- Value of a decimal digit character, `none` on a non-digit. -/
def digitVal (c : Char) : Option Nat :=
  if c.isDigit then some (c.toNat - 48) else none

/-- Parses a one- or two-digit decimal field, as `strptime` field
directives do. -/
def parseField : List Char → Option Nat
  | [a] => digitVal a
  | [a, b] =>
    match digitVal a, digitVal b with
    | some x, some y => some (x * 10 + y)
    | _, _ => none
  | _ => none

/-- Parses a time-of-day string under the strict `%H:%M:%S` format,
returning its seconds since midnight, or `none` when the string does
not match the format (e.g. hour 25 or minute 61). -/
def parseTimeHMS (s : String) : Option Nat :=
  match splitCh ':' s.toList with
  | [h, m, sec] =>
    match parseField h, parseField m, parseField sec with
    | some hv, some mv, some sv =>
      if hv ≤ 23 && mv ≤ 59 && sv ≤ 59 then
        some (hv * 3600 + mv * 60 + sv)
      else none
    | _, _, _ => none
  | _ => none

/-- Seconds from 1900-01-01 00:00:00 (the default date `strptime`
gives a time-only parse) to 1970-01-01 00:00:00 (the reference the
code subtracts): 25567 days of 86400 seconds. -/
def epochOffset1900to1970 : Nat := 2208988800

/-! ### Input tables, after the Assembler's column drops -/

/-- A raw `stop_times.txt` row.  No columns are dropped from this
table, so all five feed columns are present; each cell may be missing. -/
structure StopTimesRow where
  trip_id : Option String
  arrival_time : Option String
  departure_time : Option String
  stop_id : Option String
  stop_sequence : Option String
deriving DecidableEq

/-- A `stop_times` row surviving `process_stop_times`: both time
columns parsed (stored as seconds of day of the parsed timestamp) and
no cell missing in any column. -/
structure CleanStopTimesRow where
  trip_id : String
  arrival_time : Nat
  departure_time : Nat
  stop_id : String
  stop_sequence : String
deriving DecidableEq

/-- A `trips.txt` row after dropping `service_id`, `trip_headsign`,
`direction_id`, `shape_id`, `wheelchair_accessible`. -/
structure TripsRow where
  route_id : String
  trip_id : String
deriving DecidableEq

/-- A `routes.txt` row after dropping `route_text_color` and
`route_url`; only the columns the pipeline reads are modelled. -/
structure RoutesRow where
  route_id : String
  route_short_name : String
  route_type : Int
deriving DecidableEq

/-- A `stops.txt` row after dropping `stop_code`, `stop_name`,
`stop_url`, `location_type`, `parent_station`, `wheelchair_boarding`.
Coordinates are carried as their cell text; `pd.to_numeric` raises on
malformed text and otherwise only reinterprets the value, so it never
adds or removes rows. -/
structure StopsRow where
  stop_id : String
  stop_lat : String
  stop_lon : String
deriving DecidableEq

/-- The four loaded input tables. -/
structure Feed where
  trips : List TripsRow
  routes : List RoutesRow
  stops : List StopsRow
  stop_times : List StopTimesRow
deriving DecidableEq

/-! ### `process_stop_times` -/

/-- One row of `process_stop_times`: convert the two time columns with
`errors="coerce"` (failure or an already missing cell becomes
missing), then `dropna()` keeps the row only if NO column of the row
is missing. -/
def cleanRow (r : StopTimesRow) : Option CleanStopTimesRow :=
  match r.trip_id, r.arrival_time.bind parseTimeHMS,
      r.departure_time.bind parseTimeHMS, r.stop_id, r.stop_sequence with
  | some t, some a, some d, some s, some q => some ⟨t, a, d, s, q⟩
  | _, _, _, _, _ => none

/-- `process_stop_times`: parse the time columns, coercing failures to
missing, then drop every row that has a missing value in any column. -/
def process_stop_times (l : List StopTimesRow) : List CleanStopTimesRow :=
  l.filterMap cleanRow

/-! ### The three inner merges -/

/-- A row of `tripsandroutes = pd.merge(trips, routes, on="route_id")`. -/
structure TripRouteRow where
  route_id : String
  trip_id : String
  route_short_name : String
  route_type : Int
deriving DecidableEq

/-- A row of `final_stops = stop_times.merge(stops, on="stop_id")`. -/
structure StopTimeStopRow where
  trip_id : String
  arrival_time : Nat
  departure_time : Nat
  stop_id : String
  stop_sequence : String
  stop_lat : String
  stop_lon : String
deriving DecidableEq

/-- A row of `final = pd.merge(final_stops, tripsandroutes, on="trip_id")`. -/
structure FinalRow where
  trip_id : String
  arrival_time : Nat
  departure_time : Nat
  stop_id : String
  stop_sequence : String
  stop_lat : String
  stop_lon : String
  route_id : String
  route_short_name : String
  route_type : Int
deriving DecidableEq

/-- An assembled (`metro`) row: `final` restricted to `route_type == 1`
and augmented with `arrival_time_int` and `elevation`. -/
structure MetroRow where
  trip_id : String
  arrival_time : Nat
  departure_time : Nat
  stop_id : String
  stop_sequence : String
  stop_lat : String
  stop_lon : String
  route_id : String
  route_short_name : String
  route_type : Int
  arrival_time_int : Int
  elevation : Int
deriving DecidableEq

/-- `pd.merge(trips, routes, on="route_id", how="inner")`: every trips
row paired with every routes row sharing its `route_id`, in left-table
order. -/
def mergeTripsRoutes (trips : List TripsRow) (routes : List RoutesRow) :
    List TripRouteRow :=
  trips.flatMap fun t =>
    (routes.filter fun r => r.route_id == t.route_id).map fun r =>
      ⟨t.route_id, t.trip_id, r.route_short_name, r.route_type⟩

/-- `stop_times.merge(stops, on="stop_id", how="inner")`. -/
def mergeStopTimesStops (st : List CleanStopTimesRow)
    (stops : List StopsRow) : List StopTimeStopRow :=
  st.flatMap fun c =>
    (stops.filter fun s => s.stop_id == c.stop_id).map fun s =>
      ⟨c.trip_id, c.arrival_time, c.departure_time, c.stop_id,
        c.stop_sequence, s.stop_lat, s.stop_lon⟩

/-- `pd.merge(final_stops, tripsandroutes, on="trip_id", how="inner")`. -/
def mergeFinal (fs : List StopTimeStopRow) (tr : List TripRouteRow) :
    List FinalRow :=
  fs.flatMap fun a =>
    (tr.filter fun b => b.trip_id == a.trip_id).map fun b =>
      ⟨a.trip_id, a.arrival_time, a.departure_time, a.stop_id,
        a.stop_sequence, a.stop_lat, a.stop_lon, b.route_id,
        b.route_short_name, b.route_type⟩

/-- Augments a surviving `final` row:
`arrival_time_int = (arrival_time - datetime(1970,1,1)).total_seconds()`
— the parsed timestamp sits on 1900-01-01, so this is the seconds of
day minus the 1900→1970 offset — and `elevation = 0`. -/
def toMetroRow (r : FinalRow) : MetroRow :=
  ⟨r.trip_id, r.arrival_time, r.departure_time, r.stop_id,
    r.stop_sequence, r.stop_lat, r.stop_lon, r.route_id,
    r.route_short_name, r.route_type,
    (r.arrival_time : Int) - (epochOffset1900to1970 : Int), 0⟩

/-- The Feed Assembler (`create_dataframe.main` minus the file I/O):
clean `stop_times`, perform the three inner merges, keep the
`route_type == 1` rows, and add `arrival_time_int` and `elevation`. -/
def assemble (f : Feed) : List MetroRow :=
  let st := process_stop_times f.stop_times
  let tripsandroutes := mergeTripsRoutes f.trips f.routes
  let final_stops := mergeStopTimesStops st f.stops
  let final := mergeFinal final_stops tripsandroutes
  (final.filter fun r => r.route_type == 1).map toMetroRow

/-! ### CSV persistence of the assembled table

`save_to_csv` writes the table with a fixed column order, no index
column, utf-8.  We model the byte content as the list of emitted
lines. -/

/-- The header line of `metro_data.csv` (the assembled table's column
order). -/
def metroCsvHeader : String :=
  "trip_id,arrival_time,departure_time,stop_id,stop_sequence,stop_lat,stop_lon,route_id,route_short_name,route_type,arrival_time_int,elevation"

/-- One CSV line of the assembled table. -/
def metroRowCsv (r : MetroRow) : String :=
  r.trip_id ++ "," ++ toString r.arrival_time ++ "," ++
    toString r.departure_time ++ "," ++ r.stop_id ++ "," ++
    r.stop_sequence ++ "," ++ r.stop_lat ++ "," ++ r.stop_lon ++ "," ++
    r.route_id ++ "," ++ r.route_short_name ++ "," ++
    toString r.route_type ++ "," ++ toString r.arrival_time_int ++ "," ++
    toString r.elevation

/-- The CSV file content written for an assembled table: header line
followed by one line per row, in row order. -/
def metroCsv (rows : List MetroRow) : List String :=
  metroCsvHeader :: rows.map metroRowCsv

/-! ### Line Geometry Builder (`create_geojson_file.py`) -/

/-- First-occurrence deduplication with an accumulator of already seen
values; models pandas `Series.unique()`, which keeps values in order
of first appearance. -/
def uniqueAux : List String → List String → List String
  | _, [] => []
  | seen, x :: xs =>
    if x ∈ seen then uniqueAux seen xs
    else x :: uniqueAux (x :: seen) xs

/-- `Series.unique().tolist()`: the distinct values in order of first
appearance. -/
def uniqueList (l : List String) : List String :=
  uniqueAux [] l

/-- Inserts a string into a sorted list of strings. -/
def insertSorted (x : String) : List String → List String
  | [] => [x]
  | y :: ys => if x ≤ y then x :: y :: ys else y :: insertSorted x ys

/-- Insertion sort on strings; models the sorted group-key order of
`groupby` (pandas default `sort=True`). -/
def sortStrings : List String → List String
  | [] => []
  | x :: xs => insertSorted x (sortStrings xs)

/-- A GeoJSON feature as the Builder constructs it: a `LineString`
geometry of `(stop_lon, stop_lat, elevation, arrival_time_int)`
4-tuples, and the three deduplicated identifier-list properties. -/
structure Feature where
  geometry : List (String × String × Int × Int)
  trip : List String
  stop : List String
  route : List String
deriving DecidableEq

/-- The group of rows `groupby("trip_id")` assigns to key `t` inside
one line's selection: the rows with that `trip_id`, in original row
order. -/
def tripGroup (line_df : List MetroRow) (t : String) : List MetroRow :=
  line_df.filter fun r => r.trip_id == t

/-- Builds the feature of one trip group, as in the Builder's loop
body: zip the coordinate columns into 4-tuples and deduplicate the
`trip_id`, `stop_id` and `route_short_name` columns. -/
def mkFeature (g : List MetroRow) : Feature :=
  { geometry := g.map fun r =>
      (r.stop_lon, r.stop_lat, r.elevation, r.arrival_time_int)
    trip := uniqueList (g.map fun r => r.trip_id)
    stop := uniqueList (g.map fun r => r.stop_id)
    route := uniqueList (g.map fun r => r.route_short_name) }

/-- `create_geojson_features(df, line)`: select the line's rows, group
them by `trip_id` (group keys in sorted order, each group in original
row order) and build one feature per group. -/
def create_geojson_features (df : List MetroRow) (line : String) :
    List Feature :=
  let line_df := df.filter fun r => r.route_short_name == line
  let keys := sortStrings (uniqueList (line_df.map fun r => r.trip_id))
  keys.map fun t => mkFeature (tripGroup line_df t)

/-- The distinct line labels of the assembled table, in order of first
appearance (`df["route_short_name"].unique()`). -/
def builderLines (df : List MetroRow) : List String :=
  uniqueList (df.map fun r => r.route_short_name)

/-- The Builder's `main` loop minus the file I/O: for every distinct
line label, the feature collection written to `<line>.geojson`. -/
def runBuilder (df : List MetroRow) : List (String × List Feature) :=
  (builderLines df).map fun line => (line, create_geojson_features df line)

/-! ### File-system effect model (for the partial-output claim)

Only what the claim needs: the set of output files a stage leaves
behind.  Individual writes are atomic external operations ("write
table/document to path"); whether a computation or write raises is
abstracted by Boolean failure inputs, since it depends on the
environment (disk, feed contents), not on the modelled data. -/

/-- The names of the output files present on disk. -/
structure FileSystem where
  files : List String
deriving DecidableEq

/-- An atomic successful write of a named output file. -/
def writeFile (fs : FileSystem) (name : String) : FileSystem :=
  ⟨fs.files ++ [name]⟩

/-- Stage 1 (`create_dataframe.main`) as a file-system effect: every
computation step precedes the single `save_to_csv`; `computeFails`
abstracts a raise anywhere before the write, `writeFails` a raise of
the write itself.  Returns the resulting file system and whether the
stage completed. -/
def runAssemblerFS (computeFails writeFails : Bool) (fs : FileSystem) :
    FileSystem × Bool :=
  if computeFails then (fs, false)
  else if writeFails then (fs, false)
  else (writeFile fs "metro_data.csv", true)

/-- Stage 2 (`create_geojson_file.main`) as a file-system effect: the
loop over line labels writes `<line>.geojson` after fully processing
that line, then moves to the next; `failLine l` abstracts a raise
while processing (or writing) line `l`, which propagates out of the
loop.  Returns the resulting file system and whether the stage
completed. -/
def runBuilderFS (failLine : String → Bool) :
    List String → FileSystem → FileSystem × Bool
  | [], fs => (fs, true)
  | l :: ls, fs =>
    if failLine l then (fs, false)
    else runBuilderFS failLine ls (writeFile fs (l ++ ".geojson"))

/-! ### Concrete example inputs -/

/-- A one-row feed: trip `T1` on subway route `R1` (label `L1`) visits
stop `S1` at 08:15:30. -/
def exFeed : Feed :=
  { trips := [⟨"R1", "T1"⟩]
    routes := [⟨"R1", "L1", 1⟩]
    stops := [⟨"S1", "41.38", "2.17"⟩]
    stop_times :=
      [⟨some "T1", some "08:15:30", some "08:15:40", some "S1", some "1"⟩] }

/-- The single assembled row `exFeed` produces. -/
def exMetroRow : MetroRow :=
  ⟨"T1", 29730, 29740, "S1", "1", "41.38", "2.17", "R1", "L1", 1,
    -2208959070, 0⟩

/-- The single clean stop-times row of `exFeed`. -/
def exCleanRow : CleanStopTimesRow := ⟨"T1", 29730, 29740, "S1", "1"⟩

/-- The single feature of line `L1` built from `exFeed`'s assembled
table. -/
def exFeature : Feature :=
  { geometry := [("2.17", "41.38", 0, -2208959070)]
    trip := ["T1"], stop := ["S1"], route := ["L1"] }

/-- A feed whose stops table lists `stop_id` `S1` twice: the inner
join duplicates the single stop-times row. -/
def exFeedDupStops : Feed :=
  { trips := [⟨"R1", "T1"⟩]
    routes := [⟨"R1", "L1", 1⟩]
    stops := [⟨"S1", "41.38", "2.17"⟩, ⟨"S1", "41.39", "2.18"⟩]
    stop_times :=
      [⟨some "T1", some "08:15:30", some "08:15:40", some "S1", some "1"⟩] }

/-- A feed with a non-subway route `R1` labelled `L1` and a subway
route `R2` carrying the same label `L1`. -/
def exFeedSharedLabel : Feed :=
  { trips := [⟨"R2", "T2"⟩]
    routes := [⟨"R1", "L1", 2⟩, ⟨"R2", "L1", 1⟩]
    stops := [⟨"S1", "41.38", "2.17"⟩]
    stop_times :=
      [⟨some "T2", some "08:00:00", some "08:00:30", some "S1", some "1"⟩] }

/-- A feed with a non-subway route `R1` labelled `L1` and a subway
route `R2` labelled `L2`, with one trip on each. -/
def exFeedTwoRoutes : Feed :=
  { trips := [⟨"R1", "T1"⟩, ⟨"R2", "T2"⟩]
    routes := [⟨"R1", "L1", 2⟩, ⟨"R2", "L2", 1⟩]
    stops := [⟨"S1", "41.38", "2.17"⟩]
    stop_times :=
      [⟨some "T1", some "08:00:00", some "08:00:30", some "S1", some "1"⟩,
        ⟨some "T2", some "09:00:00", some "09:00:30", some "S1", some "1"⟩] }

/-! ### Supporting lemmas: provenance of rows through the pipeline -/

theorem mem_process_stop_times {l : List StopTimesRow} {c : CleanStopTimesRow}
    (h : c ∈ process_stop_times l) :
    ∃ raw ∈ l, raw.trip_id = some c.trip_id ∧
      raw.arrival_time.bind parseTimeHMS = some c.arrival_time ∧
      raw.departure_time.bind parseTimeHMS = some c.departure_time ∧
      raw.stop_id = some c.stop_id ∧
      raw.stop_sequence = some c.stop_sequence := by
  rw [process_stop_times, List.mem_filterMap] at h
  obtain ⟨raw, hraw, hc⟩ := h
  refine ⟨raw, hraw, ?_⟩
  unfold cleanRow at hc
  split at hc
  · next t a d s q ht ha hd hs hq =>
    cases hc
    exact ⟨ht, ha, hd, hs, hq⟩
  · cases hc

theorem mem_mergeTripsRoutes {trips : List TripsRow} {routes : List RoutesRow}
    {b : TripRouteRow} (h : b ∈ mergeTripsRoutes trips routes) :
    ∃ t ∈ trips, ∃ q ∈ routes, q.route_id = t.route_id ∧
      b = ⟨t.route_id, t.trip_id, q.route_short_name, q.route_type⟩ := by
  simp only [mergeTripsRoutes, List.mem_flatMap, List.mem_map,
    List.mem_filter, beq_iff_eq] at h
  obtain ⟨t, ht, q, ⟨hq, hid⟩, hb⟩ := h
  exact ⟨t, ht, q, hq, hid, hb.symm⟩

theorem mem_mergeStopTimesStops {st : List CleanStopTimesRow}
    {stops : List StopsRow} {a : StopTimeStopRow}
    (h : a ∈ mergeStopTimesStops st stops) :
    ∃ c ∈ st, ∃ s ∈ stops, s.stop_id = c.stop_id ∧
      a = ⟨c.trip_id, c.arrival_time, c.departure_time, c.stop_id,
        c.stop_sequence, s.stop_lat, s.stop_lon⟩ := by
  simp only [mergeStopTimesStops, List.mem_flatMap, List.mem_map,
    List.mem_filter, beq_iff_eq] at h
  obtain ⟨c, hc, s, ⟨hs, hid⟩, ha⟩ := h
  exact ⟨c, hc, s, hs, hid, ha.symm⟩

theorem mem_mergeFinal {fs : List StopTimeStopRow} {tr : List TripRouteRow}
    {r : FinalRow} (h : r ∈ mergeFinal fs tr) :
    ∃ a ∈ fs, ∃ b ∈ tr, b.trip_id = a.trip_id ∧
      r = ⟨a.trip_id, a.arrival_time, a.departure_time, a.stop_id,
        a.stop_sequence, a.stop_lat, a.stop_lon, b.route_id,
        b.route_short_name, b.route_type⟩ := by
  simp only [mergeFinal, List.mem_flatMap, List.mem_map,
    List.mem_filter, beq_iff_eq] at h
  obtain ⟨a, ha, b, ⟨hb, hid⟩, hr⟩ := h
  exact ⟨a, ha, b, hb, hid, hr.symm⟩

/-- Provenance of an assembled row: its route-type is the subway code,
its added columns have the computed values, its stop-time fields come
from a surviving `process_stop_times` row, and its route fields come
from a trips row joined with a routes row on `route_id`. -/
theorem mem_assemble {f : Feed} {r : MetroRow} (h : r ∈ assemble f) :
    r.route_type = 1 ∧ r.elevation = 0 ∧
      r.arrival_time_int =
        (r.arrival_time : Int) - (epochOffset1900to1970 : Int) ∧
      (∃ c ∈ process_stop_times f.stop_times,
        c.trip_id = r.trip_id ∧ c.arrival_time = r.arrival_time ∧
        c.departure_time = r.departure_time ∧ c.stop_id = r.stop_id) ∧
      (∃ t ∈ f.trips, ∃ q ∈ f.routes,
        q.route_id = t.route_id ∧ t.trip_id = r.trip_id ∧
        t.route_id = r.route_id ∧ q.route_short_name = r.route_short_name ∧
        q.route_type = r.route_type) := by
  rw [assemble] at h
  simp only [List.mem_map, List.mem_filter, beq_iff_eq] at h
  obtain ⟨fr, ⟨hfr, htype⟩, hr⟩ := h
  obtain ⟨a, ha, b, hb, hid, hfr_eq⟩ := mem_mergeFinal hfr
  obtain ⟨c, hc, s, hs, hsid, ha_eq⟩ := mem_mergeStopTimesStops ha
  obtain ⟨t, ht, q, hq, hqid, hb_eq⟩ := mem_mergeTripsRoutes hb
  subst hr hfr_eq ha_eq hb_eq
  exact ⟨htype, rfl, rfl, ⟨c, hc, rfl, rfl, rfl, rfl⟩,
    ⟨t, ht, q, hq, hqid, hid, rfl, rfl, rfl⟩⟩

/-! ### Supporting lemmas: row counts under the inner merges -/

theorem length_filter_key_le_one {α β : Type} [BEq β] [LawfulBEq β]
    (key : α → β) (k : β) :
    ∀ l : List α, (l.map key).Nodup →
      (l.filter fun x => key x == k).length ≤ 1
  | [], _ => by simp
  | x :: xs, h => by
    rw [List.map_cons, List.nodup_cons] at h
    obtain ⟨hx, hxs⟩ := h
    by_cases hk : key x = k
    · rw [List.filter_cons_of_pos (by simpa using hk)]
      have hnil : xs.filter (fun y => key y == k) = [] := by
        rw [List.filter_eq_nil_iff]
        intro y hy hyk
        rw [beq_iff_eq] at hyk
        exact hx (List.mem_map.mpr ⟨y, hy, by rw [hyk, hk]⟩)
      simp [hnil]
    · rw [List.filter_cons_of_neg (by simpa using hk)]
      exact length_filter_key_le_one key k xs hxs

theorem length_flatMap_le {α β : Type} (g : α → List β) :
    ∀ l : List α, (∀ x ∈ l, (g x).length ≤ 1) →
      (l.flatMap g).length ≤ l.length
  | [], _ => by simp
  | x :: xs, h => by
    rw [List.flatMap_cons, List.length_append, List.length_cons]
    have h1 := h x (by simp)
    have h2 := length_flatMap_le g xs fun y hy => h y (by simp [hy])
    omega

/-- When `trip_id` is duplicate-free in trips and `route_id` in routes,
the merged trips-routes table has at most one row per trip key. -/
theorem mergeTripsRoutes_key_bound (routes : List RoutesRow) (k : String)
    (hroutes : (routes.map RoutesRow.route_id).Nodup) :
    ∀ trips : List TripsRow, (trips.map TripsRow.trip_id).Nodup →
      ((mergeTripsRoutes trips routes).filter
        fun b => b.trip_id == k).length ≤ 1
  | [], _ => by simp [mergeTripsRoutes]
  | t :: ts, h => by
    rw [List.map_cons, List.nodup_cons] at h
    obtain ⟨ht, hts⟩ := h
    rw [show mergeTripsRoutes (t :: ts) routes =
        ((routes.filter fun r => r.route_id == t.route_id).map fun r =>
          ⟨t.route_id, t.trip_id, r.route_short_name, r.route_type⟩) ++
          mergeTripsRoutes ts routes from List.flatMap_cons ..,
      List.filter_append, List.length_append]
    rw [List.filter_map]
    by_cases hk : t.trip_id = k
    · have hrest : ((mergeTripsRoutes ts routes).filter
          fun b => b.trip_id == k) = [] := by
        rw [List.filter_eq_nil_iff]
        intro b hb hbk
        rw [beq_iff_eq] at hbk
        obtain ⟨t2, ht2, q, hq, hqid, hb_eq⟩ := mem_mergeTripsRoutes hb
        apply ht
        refine List.mem_map.mpr ⟨t2, ht2, ?_⟩
        have hb2 : b.trip_id = t2.trip_id := by rw [hb_eq]
        rw [← hb2, hbk, hk]
      rw [hrest]
      have hhead := length_filter_key_le_one RoutesRow.route_id
        t.route_id routes hroutes
      simp only [List.length_map, List.length_nil]
      calc ((routes.filter fun r => r.route_id == t.route_id).filter _).length + 0
          ≤ (routes.filter fun r => r.route_id == t.route_id).length + 0 :=
            Nat.add_le_add_right (List.length_filter_le _ _) 0
        _ ≤ 1 := by omega
    · have hhead : ((routes.filter fun r => r.route_id == t.route_id).filter
          ((fun b => b.trip_id == k) ∘ fun r =>
            (⟨t.route_id, t.trip_id, r.route_short_name,
              r.route_type⟩ : TripRouteRow))) = [] := by
        rw [List.filter_eq_nil_iff]
        intro y _ hy
        simp only [Function.comp] at hy
        rw [beq_iff_eq] at hy
        exact hk hy
      rw [hhead]
      simpa using mergeTripsRoutes_key_bound routes k hroutes ts hts

/-! ### Supporting lemmas: `unique()` and sorted group keys -/

theorem uniqueAux_cons (seen : List String) (y : String) (ys : List String) :
    uniqueAux seen (y :: ys) =
      if y ∈ seen then uniqueAux seen ys
      else y :: uniqueAux (y :: seen) ys := rfl

theorem mem_uniqueAux (x : String) :
    ∀ (l seen : List String), x ∈ uniqueAux seen l ↔ (x ∈ l ∧ x ∉ seen)
  | [], seen => by simp [uniqueAux]
  | y :: ys, seen => by
    rw [uniqueAux_cons]
    by_cases hy : y ∈ seen
    · rw [if_pos hy, mem_uniqueAux x ys seen]
      by_cases hxy : x = y
      · subst hxy
        simp [hy]
      · simp [List.mem_cons, hxy]
    · rw [if_neg hy]
      by_cases hxy : x = y
      · subst hxy
        simp [hy]
      · simp [List.mem_cons, hxy, mem_uniqueAux x ys (y :: seen)]

theorem mem_uniqueList (x : String) (l : List String) :
    x ∈ uniqueList l ↔ x ∈ l := by
  rw [uniqueList, mem_uniqueAux]
  simp

theorem insertSorted_cons (x z : String) (zs : List String) :
    insertSorted x (z :: zs) =
      if x ≤ z then x :: z :: zs else z :: insertSorted x zs := rfl

theorem mem_insertSorted (x y : String) :
    ∀ l : List String, y ∈ insertSorted x l ↔ (y = x ∨ y ∈ l)
  | [] => by simp [insertSorted]
  | z :: zs => by
    rw [insertSorted_cons]
    by_cases h : x ≤ z
    · rw [if_pos h]
      simp [List.mem_cons]
    · rw [if_neg h]
      rw [List.mem_cons, mem_insertSorted x y zs, List.mem_cons]
      tauto

theorem mem_sortStrings (y : String) :
    ∀ l : List String, y ∈ sortStrings l ↔ y ∈ l
  | [] => by simp [sortStrings]
  | x :: xs => by
    rw [sortStrings, mem_insertSorted, mem_sortStrings y xs, List.mem_cons]

theorem uniqueAux_eq_nil : ∀ (l seen : List String),
    (∀ x ∈ l, x ∈ seen) → uniqueAux seen l = []
  | [], _, _ => rfl
  | y :: ys, seen, h => by
    rw [uniqueAux_cons, if_pos (h y (by simp))]
    exact uniqueAux_eq_nil ys seen fun x hx => h x (by simp [hx])

/-- `unique()` of a nonempty constant column is the singleton of that
constant. -/
theorem uniqueList_const (t : String) : ∀ l : List String,
    l ≠ [] → (∀ x ∈ l, x = t) → uniqueList l = [t]
  | [], h, _ => absurd rfl h
  | y :: ys, _, hall => by
    have hy : y = t := hall y (by simp)
    subst hy
    rw [uniqueList, uniqueAux_cons, if_neg (List.not_mem_nil y)]
    rw [uniqueAux_eq_nil ys [y] fun x hx => by simp [hall x (by simp [hx])]]

/-! ### Supporting lemmas: the Builder's features -/

/-- Every emitted feature is the feature of some trip key occurring in
the line's selection. -/
theorem mem_create_geojson_features {df : List MetroRow} {line : String}
    {feat : Feature} (h : feat ∈ create_geojson_features df line) :
    ∃ t, (∃ r ∈ df, r.route_short_name = line ∧ r.trip_id = t) ∧
      feat = mkFeature
        (tripGroup (df.filter fun r => r.route_short_name == line) t) := by
  simp only [create_geojson_features, List.mem_map] at h
  obtain ⟨t, ht, hfeat⟩ := h
  rw [mem_sortStrings, mem_uniqueList, List.mem_map] at ht
  obtain ⟨r, hr, hrt⟩ := ht
  rw [List.mem_filter] at hr
  exact ⟨t, ⟨r, hr.1, by simpa using hr.2, hrt⟩, hfeat.symm⟩

/-- Every trip occurring on a line yields its feature among the
emitted features. -/
theorem feature_exists {df : List MetroRow} {line t : String}
    (h : ∃ r ∈ df, r.route_short_name = line ∧ r.trip_id = t) :
    mkFeature (tripGroup (df.filter fun r => r.route_short_name == line) t) ∈
      create_geojson_features df line := by
  obtain ⟨r, hr, hline, htrip⟩ := h
  simp only [create_geojson_features, List.mem_map]
  refine ⟨t, ?_, rfl⟩
  rw [mem_sortStrings, mem_uniqueList, List.mem_map]
  exact ⟨r, List.mem_filter.mpr ⟨hr, by simp [hline]⟩, htrip⟩

theorem mem_tripGroup_trip_id {g : List MetroRow} {t : String}
    {r : MetroRow} (line_df : List MetroRow)
    (hg : g = tripGroup line_df t) (hr : r ∈ g) : r.trip_id = t := by
  subst hg
  rw [tripGroup, List.mem_filter, beq_iff_eq] at hr
  exact hr.2

theorem mkFeature_trip {g : List MetroRow} {t : String} (hne : g ≠ [])
    (hall : ∀ r ∈ g, r.trip_id = t) : (mkFeature g).trip = [t] := by
  rw [mkFeature]
  refine uniqueList_const t _ (by simpa using hne) ?_
  intro x hx
  rw [List.mem_map] at hx
  obtain ⟨r, hr, hrx⟩ := hx
  rw [← hrx]
  exact hall r hr

theorem tripGroup_mem {df : List MetroRow} {line t : String} {r : MetroRow}
    (hr : r ∈ df) (hline : r.route_short_name = line)
    (htrip : r.trip_id = t) :
    r ∈ tripGroup (df.filter fun x => x.route_short_name == line) t := by
  rw [tripGroup, List.mem_filter, List.mem_filter]
  exact ⟨⟨hr, by simp [hline]⟩, by simp [htrip]⟩

theorem mem_builderLines (df : List MetroRow) (s : String) :
    s ∈ builderLines df ↔ ∃ r ∈ df, r.route_short_name = s := by
  rw [builderLines, mem_uniqueList, List.mem_map]

/-! ### Supporting lemmas: the Builder's file-system effect -/

theorem runBuilderFS_cons (fl : String → Bool) (l : String)
    (ls : List String) (fs : FileSystem) :
    runBuilderFS fl (l :: ls) fs =
      if fl l then (fs, false)
      else runBuilderFS fl ls (writeFile fs (l ++ ".geojson")) := rfl

/-- The Builder's loop leaves behind exactly the output files of the
maximal prefix of lines processed without failure, and completes iff
no line fails. -/
theorem runBuilderFS_spec (fl : String → Bool) :
    ∀ (ls : List String) (fs : FileSystem),
      (runBuilderFS fl ls fs).1.files =
        fs.files ++
          ((ls.takeWhile fun l => !fl l).map fun l => l ++ ".geojson") ∧
      ((runBuilderFS fl ls fs).2 = true ↔ ∀ l ∈ ls, fl l = false)
  | [], fs => by simp [runBuilderFS]
  | l :: ls, fs => by
    rw [runBuilderFS_cons]
    by_cases hl : fl l
    · rw [if_pos hl]
      constructor
      · rw [List.takeWhile_cons_of_neg (by simp [hl])]
        simp
      · simp only [List.mem_cons]
        constructor
        · intro h
          cases h
        · intro h
          rw [h l (Or.inl rfl)] at hl
          cases hl
    · rw [if_neg hl]
      obtain ⟨h1, h2⟩ := runBuilderFS_spec fl ls (writeFile fs (l ++ ".geojson"))
      constructor
      · rw [h1, List.takeWhile_cons_of_pos (by simp [hl])]
        simp [writeFile, List.append_assoc]
      · rw [h2]
        simp only [List.mem_cons]
        constructor
        · intro h x hx
          rcases hx with rfl | hx
          · simpa using hl
          · exact h x hx
        · intro h x hx
          exact h x (Or.inr hx)

/-! ### Claim theorems -/

/-- C1, counterexample: the stop-times row arriving at 08:15:30
survives the Assembler, but its computed `arrival_time_int` is
−2208959070, not the 29730 seconds-since-midnight the claim states:
the parse puts every time on 1900-01-01 while the code subtracts
midnight of 1970-01-01. -/
theorem arrival_time_int_counterexample :
    exFeed.stop_times.map (fun r => r.arrival_time) = [some "08:15:30"] ∧
    (assemble exFeed).map (fun r => r.arrival_time_int) =
      [(-2208959070 : Int)] ∧
    (-2208959070 : Int) ≠ 29730 := by decide

/-- C1, amended: for every surviving row, `arrival_time_int` equals
the arrival time-of-day in seconds since midnight (obtained by the
strict `%H:%M:%S` parse of the raw cell) minus the constant 2208988800
(the 1900-01-01 → 1970-01-01 offset), independent of any calendar
date; in particular 08:15:30 parses to 29730 seconds of day, so it
yields 29730 − 2208988800. -/
theorem arrival_time_int_spec :
    parseTimeHMS "08:15:30" = some 29730 ∧
    ∀ (f : Feed) (r : MetroRow), r ∈ assemble f →
      r.arrival_time_int =
        (r.arrival_time : Int) - (epochOffset1900to1970 : Int) ∧
      ∃ raw ∈ f.stop_times,
        raw.arrival_time.bind parseTimeHMS = some r.arrival_time := by
  refine ⟨by decide, ?_⟩
  intro f r hr
  obtain ⟨-, -, hint, ⟨c, hc, -, hca, -, -⟩, -⟩ := mem_assemble hr
  obtain ⟨raw, hraw, -, ha, -, -, -⟩ := mem_process_stop_times hc
  exact ⟨hint, raw, hraw, by rw [ha, hca]⟩

/-- C1, witness: the amended statement applied to the one-row feed. -/
theorem arrival_time_int_spec_witness :
    exMetroRow.arrival_time_int =
      (exMetroRow.arrival_time : Int) - (epochOffset1900to1970 : Int) ∧
    ∃ raw ∈ exFeed.stop_times,
      raw.arrival_time.bind parseTimeHMS = some exMetroRow.arrival_time :=
  arrival_time_int_spec.2 exFeed exMetroRow (by decide)

/-- C2, counterexample: a Builder run over lines `L1`, `L2` that fails
while processing `L2` does not complete, yet leaves the new output
file `L1.geojson` in place — stage 2 does not write all-or-nothing. -/
theorem builder_partial_output_counterexample :
    (runBuilderFS (fun l => l == "L2") ["L1", "L2"] (FileSystem.mk [])).2
        = false ∧
    (runBuilderFS (fun l => l == "L2") ["L1", "L2"] (FileSystem.mk [])).1.files
        = ["L1.geojson"] := by decide

/-- C2, amended: stage 1 writes its single output only after the full
table is computed, so a failing run leaves the file system unchanged;
stage 2 writes each line's file only after fully processing that line,
but writes inside a per-line loop, so a run leaves behind exactly the
output files of the maximal prefix of lines processed before the first
failure, and completes iff no line fails. -/
theorem stage_output_on_failure :
    (∀ (c w : Bool) (fs : FileSystem),
      (runAssemblerFS c w fs).2 = false → (runAssemblerFS c w fs).1 = fs) ∧
    (∀ (fl : String → Bool) (ls : List String) (fs : FileSystem),
      (runBuilderFS fl ls fs).1.files =
        fs.files ++
          ((ls.takeWhile fun l => !fl l).map fun l => l ++ ".geojson") ∧
      ((runBuilderFS fl ls fs).2 = true ↔ ∀ l ∈ ls, fl l = false)) := by
  constructor
  · intro c w fs h
    cases c
    · cases w
      · simp [runAssemblerFS] at h
      · rfl
    · rfl
  · intro fl ls fs
    exact runBuilderFS_spec fl ls fs

/-- C2, witness: a failing Assembler run leaves the empty file system
unchanged. -/
theorem stage_output_on_failure_witness :
    (runAssemblerFS true false (FileSystem.mk [])).1 = FileSystem.mk [] :=
  stage_output_on_failure.1 true false (FileSystem.mk []) (by decide)

/-- C3, counterexample: a stops table listing the same `stop_id` twice
makes the inner join duplicate the single stop-times row, so the
assembled table has 2 rows from 1 input row. -/
theorem assemble_rowcount_counterexample :
    (assemble exFeedDupStops).length = 2 ∧
    exFeedDupStops.stop_times.length = 1 ∧
    ¬ (assemble exFeedDupStops).length ≤ exFeedDupStops.stop_times.length := by
  decide

/-- C3, amended: when the join keys are duplicate-free on the
dimension tables — `stop_id` in stops, `trip_id` in trips, `route_id`
in routes — the assembled table has at most as many rows as the input
stop_times table. -/
theorem assemble_rowcount_le (f : Feed)
    (hstops : (f.stops.map StopsRow.stop_id).Nodup)
    (htrips : (f.trips.map TripsRow.trip_id).Nodup)
    (hroutes : (f.routes.map RoutesRow.route_id).Nodup) :
    (assemble f).length ≤ f.stop_times.length := by
  rw [assemble]
  simp only [List.length_map]
  calc ((mergeFinal (mergeStopTimesStops (process_stop_times f.stop_times)
            f.stops) (mergeTripsRoutes f.trips f.routes)).filter
          fun r => r.route_type == 1).length
      ≤ (mergeFinal (mergeStopTimesStops (process_stop_times f.stop_times)
            f.stops) (mergeTripsRoutes f.trips f.routes)).length :=
        List.length_filter_le _ _
    _ ≤ (mergeStopTimesStops (process_stop_times f.stop_times)
            f.stops).length := by
        apply length_flatMap_le
        intro a _
        rw [List.length_map]
        exact mergeTripsRoutes_key_bound f.routes a.trip_id hroutes
          f.trips htrips
    _ ≤ (process_stop_times f.stop_times).length := by
        apply length_flatMap_le
        intro c _
        rw [List.length_map]
        exact length_filter_key_le_one StopsRow.stop_id c.stop_id
          f.stops hstops
    _ ≤ f.stop_times.length := List.length_filterMap_le _ _

/-- C3, witness: the bound applied to the one-row feed, whose key
columns are duplicate-free. -/
theorem assemble_rowcount_le_witness :
    (assemble exFeed).length ≤ exFeed.stop_times.length :=
  assemble_rowcount_le exFeed (by decide) (by decide) (by decide)

/-- C4: every assembled row has `route_type` equal to the subway code
1, and both of its time fields are the successful strict `%H:%M:%S`
parses of some input stop-times row's cells. -/
theorem assemble_row_invariant (f : Feed) (r : MetroRow)
    (h : r ∈ assemble f) :
    r.route_type = 1 ∧
    ∃ raw ∈ f.stop_times,
      raw.arrival_time.bind parseTimeHMS = some r.arrival_time ∧
      raw.departure_time.bind parseTimeHMS = some r.departure_time := by
  obtain ⟨h1, -, -, ⟨c, hc, -, hca, hcd, -⟩, -⟩ := mem_assemble h
  obtain ⟨raw, hraw, -, ha, hd, -, -⟩ := mem_process_stop_times hc
  exact ⟨h1, raw, hraw, by rw [ha, hca], by rw [hd, hcd]⟩

/-- C4, witness: the invariant applied to the one-row feed's
assembled row. -/
theorem assemble_row_invariant_witness :
    exMetroRow.route_type = 1 ∧
    ∃ raw ∈ exFeed.stop_times,
      raw.arrival_time.bind parseTimeHMS = some exMetroRow.arrival_time ∧
      raw.departure_time.bind parseTimeHMS = some exMetroRow.departure_time :=
  assemble_row_invariant exFeed exMetroRow (by decide)

/-- C5: for every line and every trip occurring on that line, the
Builder emits a feature whose trip property is that trip's singleton,
whose geometry is exactly the ordered list of
`(stop_lon, stop_lat, elevation, arrival_time_int)` tuples of the
assembled rows of that trip within the line's selection, in assembled
row order, and whose point count equals the number of those rows. -/
theorem feature_geometry_spec (df : List MetroRow) (line t : String)
    (h : ∃ r ∈ df, r.route_short_name = line ∧ r.trip_id = t) :
    ∃ feat ∈ create_geojson_features df line,
      feat.trip = [t] ∧
      feat.geometry =
        ((df.filter fun r => r.route_short_name == line).filter
            fun r => r.trip_id == t).map
          (fun r => (r.stop_lon, r.stop_lat, r.elevation,
            r.arrival_time_int)) ∧
      feat.geometry.length =
        ((df.filter fun r => r.route_short_name == line).filter
            fun r => r.trip_id == t).length := by
  refine ⟨_, feature_exists h, ?_, rfl,
    by simp only [mkFeature, tripGroup, List.length_map]⟩
  obtain ⟨r, hr, hline, htrip⟩ := h
  refine mkFeature_trip
    (List.ne_nil_of_mem (tripGroup_mem hr hline htrip)) ?_
  intro x hx
  exact mem_tripGroup_trip_id _ rfl hx

/-- C5, witness: the feature of trip `T1` on line `L1` of the one-row
feed's assembled table. -/
theorem feature_geometry_spec_witness :
    ∃ feat ∈ create_geojson_features (assemble exFeed) "L1",
      feat.trip = ["T1"] ∧
      feat.geometry =
        (((assemble exFeed).filter
            fun r => r.route_short_name == "L1").filter
            fun r => r.trip_id == "T1").map
          (fun r => (r.stop_lon, r.stop_lat, r.elevation,
            r.arrival_time_int)) ∧
      feat.geometry.length =
        (((assemble exFeed).filter
            fun r => r.route_short_name == "L1").filter
            fun r => r.trip_id == "T1").length :=
  feature_geometry_spec (assemble exFeed) "L1" "T1" (by decide)

/-- C6: every feature the Builder emits for a line has a trip property
list with exactly one element, and that element is the trip identifier
of the group of rows its geometry was built from. -/
theorem feature_trip_singleton (df : List MetroRow) (line : String)
    (feat : Feature) (h : feat ∈ create_geojson_features df line) :
    ∃ t, feat.trip = [t] ∧
      feat.geometry =
        ((df.filter fun r => r.route_short_name == line).filter
            fun r => r.trip_id == t).map
          (fun r => (r.stop_lon, r.stop_lat, r.elevation,
            r.arrival_time_int)) := by
  obtain ⟨t, ⟨r, hr, hline, htrip⟩, hfeat⟩ := mem_create_geojson_features h
  subst hfeat
  refine ⟨t, ?_, rfl⟩
  refine mkFeature_trip
    (List.ne_nil_of_mem (tripGroup_mem hr hline htrip)) ?_
  intro x hx
  exact mem_tripGroup_trip_id _ rfl hx

/-- C6, witness: the one feature built from the one-row feed. -/
theorem feature_trip_singleton_witness :
    ∃ t, exFeature.trip = [t] ∧
      exFeature.geometry =
        (((assemble exFeed).filter
            fun r => r.route_short_name == "L1").filter
            fun r => r.trip_id == t).map
          (fun r => (r.stop_lon, r.stop_lat, r.elevation,
            r.arrival_time_int)) :=
  feature_trip_singleton (assemble exFeed) "L1" exFeature (by decide)

/-- C7, counterexample: the feed contains a routes row with
`route_type = 2` and short name `L1`, yet the Builder produces an
output for label `L1`, because a subway route shares that label. -/
theorem route_filter_counterexample :
    (⟨"R1", "L1", 2⟩ : RoutesRow) ∈ exFeedSharedLabel.routes ∧
    (⟨"R1", "L1", 2⟩ : RoutesRow).route_type ≠ 1 ∧
    "L1" ∈ builderLines (assemble exFeedSharedLabel) := by decide

/-- C7, amended: for a routes row with `route_type ≠ 1`, provided no
distinct routes row shares its `route_id` and trip identifiers are
unique in trips, the assembled table has no row for any trip of that
route; and provided additionally no subway-type routes row shares its
short name, the Builder produces no output for that label. -/
theorem route_filter_spec (f : Feed) (ρ : RoutesRow) (_hmem : ρ ∈ f.routes)
    (htype : ρ.route_type ≠ 1)
    (hkey : ∀ q ∈ f.routes, q.route_id = ρ.route_id → q = ρ)
    (htrips : (f.trips.map TripsRow.trip_id).Nodup) :
    (∀ t ∈ f.trips, t.route_id = ρ.route_id →
      ∀ r ∈ assemble f, r.trip_id ≠ t.trip_id) ∧
    ((∀ q ∈ f.routes, q.route_type = 1 →
        q.route_short_name ≠ ρ.route_short_name) →
      ρ.route_short_name ∉ builderLines (assemble f)) := by
  constructor
  · intro t ht htr r hr heq
    obtain ⟨h1, -, -, -, t', ht', q, hq, hqid, htid, -, -, hqtype⟩ :=
      mem_assemble hr
    have htt : t = t' :=
      List.inj_on_of_nodup_map htrips ht ht' (by rw [htid, heq])
    apply htype
    have hqρ : q = ρ := hkey q hq (by rw [hqid, ← htt, htr])
    rw [← hqρ, hqtype, h1]
  · intro hlabels hin
    rw [mem_builderLines] at hin
    obtain ⟨r, hr, hname⟩ := hin
    obtain ⟨h1, -, -, -, t', ht', q, hq, -, -, -, hqname, hqtype⟩ :=
      mem_assemble hr
    exact hlabels q hq (by rw [hqtype, h1]) (by rw [hqname, hname])

/-- C7, witness: in the two-route feed the non-subway route's label
`L1` gets no output. -/
theorem route_filter_spec_witness :
    "L1" ∉ builderLines (assemble exFeedTwoRoutes) :=
  (route_filter_spec exFeedTwoRoutes ⟨"R1", "L1", 2⟩ (by decide)
    (by decide) (by decide) (by decide)).2 (by decide)

/-- C8: `25:61:00` fails the strict `%H:%M:%S` parse; a row carrying
it is coerced to missing and removed by `process_stop_times` without
an error (the function totally returns the empty survivor list); and
every row that reaches the assembled table — hence any output
geometry — has both time cells successfully parsed. -/
theorem unparseable_time_dropped :
    parseTimeHMS "25:61:00" = none ∧
    process_stop_times
      [⟨some "T9", some "25:61:00", some "08:00:30", some "S9",
        some "1"⟩] = [] ∧
    ∀ (f : Feed) (r : MetroRow), r ∈ assemble f →
      ∃ raw ∈ f.stop_times,
        raw.arrival_time.bind parseTimeHMS = some r.arrival_time ∧
        raw.departure_time.bind parseTimeHMS = some r.departure_time := by
  refine ⟨by decide, by decide, ?_⟩
  intro f r hr
  obtain ⟨-, -, -, ⟨c, hc, -, hca, hcd, -⟩, -⟩ := mem_assemble hr
  obtain ⟨raw, hraw, -, ha, hd, -, -⟩ := mem_process_stop_times hc
  exact ⟨raw, hraw, by rw [ha, hca], by rw [hd, hcd]⟩

/-- C8, witness: the parse facts applied to the one-row feed's
assembled row. -/
theorem unparseable_time_dropped_witness :
    ∃ raw ∈ exFeed.stop_times,
      raw.arrival_time.bind parseTimeHMS = some exMetroRow.arrival_time ∧
      raw.departure_time.bind parseTimeHMS = some exMetroRow.departure_time :=
  unparseable_time_dropped.2.2 exFeed exMetroRow (by decide)

/-- C9: the Assembler is a pure function of its input tables — two
runs on identical inputs produce the same row list and hence
byte-identical CSV output, with the same column order and row order. -/
theorem assembler_deterministic (f g : Feed) (h : f = g) :
    metroCsv (assemble f) = metroCsv (assemble g) ∧
      assemble f = assemble g := by
  subst h
  exact ⟨rfl, rfl⟩

/-- C9, witness: determinism at the one-row feed. -/
theorem assembler_deterministic_witness :
    metroCsv (assemble exFeed) = metroCsv (assemble exFeed) ∧
      assemble exFeed = assemble exFeed :=
  assembler_deterministic exFeed exFeed rfl

/-- C10: `dropna()` removes rows with a missing value in ANY column:
a row whose two time cells parse (08:00:00, 08:00:30) but whose
`stop_sequence` cell is missing is still dropped; and every surviving
row corresponds to an input row with no missing cell in any of the
five columns, both time cells parsed. -/
theorem dropna_all_columns :
    parseTimeHMS "08:00:00" = some 28800 ∧
    parseTimeHMS "08:00:30" = some 28830 ∧
    process_stop_times
      [⟨some "T8", some "08:00:00", some "08:00:30", some "S8", none⟩]
      = [] ∧
    ∀ (l : List StopTimesRow) (c : CleanStopTimesRow),
      c ∈ process_stop_times l →
      ∃ raw ∈ l, raw.trip_id = some c.trip_id ∧
        raw.arrival_time.bind parseTimeHMS = some c.arrival_time ∧
        raw.departure_time.bind parseTimeHMS = some c.departure_time ∧
        raw.stop_id = some c.stop_id ∧
        raw.stop_sequence = some c.stop_sequence :=
  ⟨by decide, by decide, by decide,
    fun _ _ h => mem_process_stop_times h⟩

/-- C10, witness: the survivor characterization applied to the
one-row feed's stop-times table. -/
theorem dropna_all_columns_witness :
    ∃ raw ∈ exFeed.stop_times,
      raw.trip_id = some exCleanRow.trip_id ∧
      raw.arrival_time.bind parseTimeHMS = some exCleanRow.arrival_time ∧
      raw.departure_time.bind parseTimeHMS = some exCleanRow.departure_time ∧
      raw.stop_id = some exCleanRow.stop_id ∧
      raw.stop_sequence = some exCleanRow.stop_sequence :=
  dropna_all_columns.2.2.2 exFeed.stop_times exCleanRow (by decide)

end MetroBCN
